import Mathlib

/-!
Shallow embedding of `onnxruntime/core/providers/cpu/nn/qlinearconv.cc`
(the CPU `QLinearConv` kernel) and verification of its specification.

Conventions of the embedding:
* `int64_t` values (tensor dimensions, attributes) are `Int`; C++ `/` and `%`
  on integers truncate toward zero, so they are `Int.tdiv` / `Int.tmod`.
* `uint8_t` payloads (quantized data, zero points) are `Nat`;
  `float` payloads (scales) are `ℚ` — the claims settled here concern which
  formula/branch is applied to scales, never rounding of a float result.
* A C++ raw array indexed by `size_t` is a Lean function `Nat → α` (for the
  filter reorder, whose inputs range over in-bounds indices only) or a
  `List α` with `getD`/`all` (for tensor payloads; the source reads indices
  `0 ≤ i < Shape().Size()`, which equal the payload length for a tensor).
* Out-parameters written through C++ references are modelled by returning
  the final value of every out-parameter next to the status, so that writes
  preceding an early error return are preserved, exactly as in the source.
-/

namespace QLinearConvModel

/-- `TensorShape::Size()`: product of the dimensions. -/
def shapeSize (shape : List Int) : Int := shape.prod

/-!
## ReorderFilter
Embeds `QLinearConv::ReorderFilter` (qlinearconv.cc lines 100-113).
The C++ routine advances an output pointer through three nested loops
(`k` outer, `ic` middle, `oc` inner); the list below holds exactly the
sequence of written values in write order.
-/

/-- `QLinearConv::ReorderFilter`: the output buffer, as the list of values
written in order by the `k`/`ic`/`oc` loop nest; `input` is the source
filter buffer. -/
def ReorderFilter (input : Nat → Nat) (output_channels input_channels kernel_size : Nat) :
    List Nat :=
  (List.range kernel_size).flatMap (fun k =>
    (List.range input_channels).flatMap (fun ic =>
      (List.range output_channels).map (fun oc =>
        input (oc * input_channels * kernel_size + ic * kernel_size + k))))

lemma length_flatMap_const {α : Type} (g : Nat → List α) (m n : Nat)
    (hg : ∀ j, (g j).length = m) :
    ((List.range n).flatMap g).length = n * m := by
  induction n generalizing g with
  | zero => simp
  | succ n ih =>
    rw [List.range_succ_eq_map, List.flatMap_cons, List.flatMap_map,
        List.length_append, hg 0]
    have := ih (fun j => g (Nat.succ j)) (fun j => hg (Nat.succ j))
    simp only [Function.comp] at this ⊢
    rw [this]
    ring

lemma getElem?_flatMap_const {α : Type} (g : Nat → List α) (m n j r : Nat)
    (hg : ∀ j, (g j).length = m) (hj : j < n) (hr : r < m) :
    ((List.range n).flatMap g)[j * m + r]? = (g j)[r]? := by
  induction n generalizing g j with
  | zero => omega
  | succ n ih =>
    rw [List.range_succ_eq_map, List.flatMap_cons, List.flatMap_map]
    cases j with
    | zero =>
      have hlt : 0 * m + r < (g 0).length := by simpa [hg 0] using hr
      rw [List.getElem?_append, if_pos hlt]
      simp only [Nat.zero_mul, Nat.zero_add]
    | succ j =>
      have hge : (g 0).length ≤ Nat.succ j * m + r := by
        rw [hg 0]
        calc m ≤ Nat.succ j * m := Nat.le_mul_of_pos_left m (Nat.succ_pos j)
          _ ≤ Nat.succ j * m + r := Nat.le_add_right _ _
      rw [List.getElem?_append_right hge]
      have harith : Nat.succ j * m + r - (g 0).length = j * m + r := by
        rw [hg 0, Nat.succ_mul]; omega
      rw [harith]
      exact ih (fun a => g (Nat.succ a)) j (fun a => hg (Nat.succ a)) (by omega)

lemma getElem_flatMap_const {α : Type} (g : Nat → List α) (m n j r : Nat)
    (hg : ∀ j, (g j).length = m) (hj : j < n) (hr : r < m)
    (h : j * m + r < ((List.range n).flatMap g).length)
    (h2 : r < (g j).length) :
    ((List.range n).flatMap g)[j * m + r] = (g j)[r] := by
  have hq := getElem?_flatMap_const g m n j r hg hj hr
  rw [List.getElem?_eq_getElem h, List.getElem?_eq_getElem h2] at hq
  exact Option.some.inj hq

lemma length_ReorderFilter (input : Nat → Nat) (OC IC KS : Nat) :
    (ReorderFilter input OC IC KS).length = KS * (IC * OC) := by
  unfold ReorderFilter
  exact length_flatMap_const _ (IC * OC) KS (fun k =>
    length_flatMap_const _ OC IC (fun ic => by simp))

/-- C6: `ReorderFilter` is a pure index permutation from output-channel-major
to kernel-minor order: for every `oc < output_channels`,
`ic < input_channels`, `k < kernel_size`, the output element at position
`(k*input_channels + ic)*output_channels + oc` equals the input element at
position `(oc*input_channels + ic)*kernel_size + k`. -/
theorem reorderFilter_permutation (input : Nat → Nat) (OC IC KS oc ic k : Nat)
    (hoc : oc < OC) (hic : ic < IC) (hk : k < KS)
    (hidx : (k * IC + ic) * OC + oc < (ReorderFilter input OC IC KS).length) :
    (ReorderFilter input OC IC KS)[(k * IC + ic) * OC + oc] =
      input ((oc * IC + ic) * KS + k) := by
  have key : (ReorderFilter input OC IC KS)[(k * IC + ic) * OC + oc]? =
      some (input ((oc * IC + ic) * KS + k)) := by
    unfold ReorderFilter
    have hglen : ∀ j, ((List.range IC).flatMap (fun ic =>
        (List.range OC).map (fun oc =>
          input (oc * IC * KS + ic * KS + j)))).length = IC * OC :=
      fun j => length_flatMap_const _ OC IC (fun _ => by simp)
    have hinner : ic * OC + oc < IC * OC := by
      calc ic * OC + oc < ic * OC + OC := by omega
        _ = (ic + 1) * OC := by ring
        _ ≤ IC * OC := Nat.mul_le_mul_right OC (by omega)
    have hsplit : (k * IC + ic) * OC + oc = k * (IC * OC) + (ic * OC + oc) := by
      ring
    rw [hsplit]
    rw [getElem?_flatMap_const _ (IC * OC) KS k (ic * OC + oc) hglen hk hinner]
    rw [getElem?_flatMap_const _ OC IC ic oc (fun _ => by simp) hic hoc]
    have hidx2 : oc * IC * KS + ic * KS + k = (oc * IC + ic) * KS + k := by ring
    simp [List.getElem?_map, List.getElem?_range, hoc, hidx2]
  rw [List.getElem?_eq_getElem hidx] at key
  exact Option.some.inj key

/-- Witness for C6 at `OC = 2`, `IC = 3`, `KS = 2`, `oc = 1`, `ic = 2`,
`k = 1`, with the identity buffer as input. -/
theorem reorderFilter_permutation_witness :
    (1 < 2 ∧ 2 < 3 ∧ 1 < 2 ∧
      (1 * 3 + 2) * 2 + 1 < (ReorderFilter (fun i => i) 2 3 2).length) ∧
    (ReorderFilter (fun i => i) 2 3 2).get ⟨(1 * 3 + 2) * 2 + 1, by decide⟩ =
      (1 * 3 + 2) * 2 + 1 := by
  refine ⟨⟨by decide, by decide, by decide, by decide⟩, ?_⟩
  have := reorderFilter_permutation (fun i => i) 2 3 2 1 2 1
    (by decide) (by decide) (by decide) (by decide)
  simpa using this

/-!
## ComputeMaxThreadCount
Embeds `QLinearConv::ComputeMaxThreadCount` (qlinearconv.cc lines 131-158).
The source computes `complexity` through `double` arithmetic; every value
involved is an exact product of nonnegative `int64_t` dimensions and the
divisor `thread_complexity = 64*1024` is a power of two, so the arithmetic
is modelled exactly over `Int` (`static_cast<int32_t>` of the nonnegative
quotient truncates, i.e. `Int.tdiv`).  `isHybrid` stands for
`CPUIDInfo::GetCPUIDInfo().IsHybrid()`, an external CPU-topology query.
-/

/-- `QLinearConv::ComputeMaxThreadCount`. -/
def ComputeMaxThreadCount (isHybrid : Bool) (output_image_size group_output_channels
    kernel_dim : Int) : Int :=
  let maximum_thread_count : Int := if isHybrid then 64 else 16
  let thread_complexity : Int := 64 * 1024
  let complexity : Int := output_image_size * group_output_channels * kernel_dim
  let thread_count : Int :=
    if complexity < thread_complexity * maximum_thread_count then
      complexity.tdiv thread_complexity + 1
    else maximum_thread_count
  if thread_count > output_image_size then output_image_size else thread_count

/-- C8: for every geometry with `output_image_size ≥ 1` (dimensions are
nonnegative), `ComputeMaxThreadCount` returns a thread count that is at
least 1, at most `output_image_size`, and at most the maximum-thread cap:
64 on hybrid CPU topologies and 16 on homogeneous ones. -/
theorem computeMaxThreadCount_bounds (isHybrid : Bool)
    (output_image_size group_output_channels kernel_dim : Int)
    (hois : 1 ≤ output_image_size) (hgoc : 0 ≤ group_output_channels)
    (hkd : 0 ≤ kernel_dim) :
    1 ≤ ComputeMaxThreadCount isHybrid output_image_size group_output_channels kernel_dim ∧
    ComputeMaxThreadCount isHybrid output_image_size group_output_channels kernel_dim ≤
      output_image_size ∧
    ComputeMaxThreadCount isHybrid output_image_size group_output_channels kernel_dim ≤
      (if isHybrid then 64 else 16) := by
  simp only [ComputeMaxThreadCount]
  set maxTC : Int := if isHybrid then 64 else 16 with hmax
  have hmaxpos : 1 ≤ maxTC := by rw [hmax]; split <;> norm_num
  have hc : 0 ≤ output_image_size * group_output_channels * kernel_dim :=
    mul_nonneg (mul_nonneg (by omega) hgoc) hkd
  set c : Int := output_image_size * group_output_channels * kernel_dim with hcdef
  set tc : Int := if c < 64 * 1024 * maxTC then c.tdiv (64 * 1024) + 1 else maxTC with htc
  have htc1 : 1 ≤ tc := by
    rw [htc]; split
    · have := Int.tdiv_nonneg hc (by norm_num : (0:Int) ≤ 64 * 1024)
      omega
    · exact hmaxpos
  have htc2 : tc ≤ maxTC := by
    rw [htc]; split
    · rename_i hlt
      rw [Int.tdiv_eq_ediv hc (by norm_num)]
      have : c / (64 * 1024) < maxTC := by
        rw [Int.ediv_lt_iff_lt_mul (by norm_num : (0:Int) < 64 * 1024)]
        linarith [hlt]
      omega
    · exact le_refl _
  split
  · rename_i hgt
    exact ⟨hois, le_refl _, by omega⟩
  · rename_i hle
    exact ⟨htc1, by omega, htc2⟩

/-- Witness for C8: hybrid topology, `output_image_size = 9`,
`group_output_channels = 4`, `kernel_dim = 8`. -/
theorem computeMaxThreadCount_bounds_witness :
    ((1:Int) ≤ 9 ∧ (0:Int) ≤ 4 ∧ (0:Int) ≤ 8) ∧
    (1 ≤ ComputeMaxThreadCount true 9 4 8 ∧
      ComputeMaxThreadCount true 9 4 8 ≤ 9 ∧
      ComputeMaxThreadCount true 9 4 8 ≤ (if true then 64 else 16)) :=
  ⟨⟨by decide, by decide, by decide⟩,
    computeMaxThreadCount_bounds true 9 4 8 (by decide) (by decide) (by decide)⟩

/-!
## PrePack
Embeds `QLinearConv::PrePack` (qlinearconv.cc lines 202-276).
`MlasGemmPackBSize(group_output_channels, kernel_dim, true)` is an external
backend query, passed in as the parameter `packBSize`; buffer pointers are
modelled by their non-nullness, and backend / allocator activity is traced
by invocation counts.
-/

/-- Kernel-instance prepack state: the mutable fields of `QLinearConv`
written by `PrePack` (`W_shape_`, `packed_W_buffer_`, `packed_W_size_`,
`reordered_W_buffer_`, `is_W_signed_`, `is_W_packed_`). -/
structure PrepackState where
  wShape : List Int
  packedW : Bool
  packedWSize : Nat
  reorderedW : Bool
  isWSigned : Bool
  isWPacked : Bool
deriving Repr, DecidableEq

/-- The state of a freshly constructed kernel (qlinearconv.cc lines 89-94):
no packed or reordered buffer, `is_W_packed_ = false`. -/
def PrepackState.initial : PrepackState :=
  ⟨[], false, 0, false, false, false⟩

/-- Result of `QLinearConv::PrePack`: the returned status (`Status::OK()` on
every path), the `is_packed` out-parameter, the kernel state after the
call, and the number of `MlasGemmPackB`, `ReorderFilter` and allocator
`Alloc` invocations. -/
structure PrePackResult where
  statusOk : Bool
  isPacked : Bool
  state : PrepackState
  packCalls : Nat
  reorderCalls : Nat
  allocCalls : Nat
deriving Repr, DecidableEq

/-- `QLinearConv::PrePack`.  `shape` is `tensor.Shape().GetDims()`,
`isSigned` is `tensor.IsDataType<int8_t>()`, `group` is
`conv_attrs_.group`, `inputIdx` is the `input_idx` argument. -/
def PrePack (st0 : PrepackState) (shape : List Int) (isSigned : Bool)
    (group : Int) (inputIdx : Int) (packBSize : Nat) : PrePackResult :=
  if inputIdx ≠ 3 then ⟨true, false, st0, 0, 0, 0⟩
  else if shape.length ≤ 2 then ⟨true, false, st0, 0, 0, 0⟩
  else if (shape.getD 0 0).tmod group ≠ 0 then ⟨true, false, st0, 0, 0, 0⟩
  -- group_input_channels = shape[1], group_output_channels = shape[0]/group,
  -- W_shape_ and is_W_signed_ stored (lines 228-229) on all remaining paths
  else if shape.getD 1 0 ≠ 1 ∧ (shape.getD 0 0).tdiv group ≠ 1 then
    (if packBSize ≠ 0 then
      ⟨true, true,
        { st0 with
          wShape := shape
          isWSigned := isSigned
          packedW := true
          packedWSize := packBSize
          isWPacked := true },
        group.toNat, group.toNat, 2⟩
    else
      ⟨true, true,
        { st0 with
          wShape := shape
          isWSigned := isSigned
          packedWSize := packBSize
          reorderedW := true
          isWPacked := true },
        0, 1, 1⟩)
  else
    ⟨true, true,
      { st0 with
        wShape := shape
        isWSigned := isSigned
        reorderedW := true
        isWPacked := true },
      0, 1, 1⟩

/-- C9: for every weight tensor with rank ≤ 2 or with output-channels not
divisible by group, `PrePack` returns a success status with `is_packed`
left `false`, performs no allocation and no backend call, and leaves all
kernel-instance state unchanged. -/
theorem prePack_decline_silent (st0 : PrepackState) (shape : List Int)
    (isSigned : Bool) (group inputIdx : Int) (packBSize : Nat)
    (h : shape.length ≤ 2 ∨ (shape.getD 0 0).tmod group ≠ 0) :
    PrePack st0 shape isSigned group inputIdx packBSize =
      ⟨true, false, st0, 0, 0, 0⟩ := by
  by_cases h1 : inputIdx = 3
  · by_cases hl : shape.length ≤ 2
    · simp only [PrePack]
      rw [if_neg (not_not_intro h1), if_pos hl]
    · have hm : (shape.getD 0 0).tmod group ≠ 0 := by tauto
      simp only [PrePack]
      rw [if_neg (not_not_intro h1), if_neg hl, if_pos hm]
  · simp only [PrePack]
    rw [if_pos h1]

/-- Witness for C9: rank-2 weight shape `[4, 1]`. -/
theorem prePack_decline_silent_witness :
    (([4, 1] : List Int).length ≤ 2 ∨
      (([4, 1] : List Int).getD 0 0).tmod 1 ≠ 0) ∧
    PrePack .initial [4, 1] true 1 3 5 = ⟨true, false, .initial, 0, 0, 0⟩ :=
  ⟨Or.inl (by decide),
    prePack_decline_silent .initial [4, 1] true 1 3 5 (Or.inl (by decide))⟩

/-- Counterexample to C3: weight shape `[4, 1, 2, 2]`, `group = 1`, nonzero
backend pack size 7.  The group is not depthwise-eligible
(`group_output_channels = 4 ≠ 1`), yet `PrePack` never invokes the packing
routine and produces no packed buffer, because the source skips packing
whenever `group_input_channels == 1` OR `group_output_channels == 1`
(qlinearconv.cc line 238), not only when both are 1. -/
theorem prePack_pack_skip_counterexample :
    2 < ([4, 1, 2, 2] : List Int).length ∧
    (([4, 1, 2, 2] : List Int).getD 0 0).tmod 1 = 0 ∧
    ¬(([4, 1, 2, 2] : List Int).getD 1 0 = 1 ∧
      (([4, 1, 2, 2] : List Int).getD 0 0).tdiv 1 = 1) ∧
    (PrePack .initial [4, 1, 2, 2] false 1 3 7).packCalls = 0 ∧
    (PrePack .initial [4, 1, 2, 2] false 1 3 7).state.packedW = false ∧
    (PrePack .initial [4, 1, 2, 2] false 1 3 7).state.reorderedW = true := by
  decide

/-- C3 (amended): in `PrePack`, for a constant filter of rank > 2 with
output-channels divisible by group, the backend packing routine is skipped
exactly when `group_input_channels == 1` OR `group_output_channels == 1`
(skipped groups use the unpacked reordered representation); for every other
group shape the packing routine is invoked once per group, degrading to the
unpacked reordered representation only when the backend reports pack
size 0. -/
theorem prePack_pack_selection (st0 : PrepackState) (shape : List Int)
    (isSigned : Bool) (group : Int) (packBSize : Nat)
    (hr : 2 < shape.length) (hd : (shape.getD 0 0).tmod group = 0)
    (hp0 : st0.packedW = false) :
    ((shape.getD 1 0 = 1 ∨ (shape.getD 0 0).tdiv group = 1) →
      (PrePack st0 shape isSigned group 3 packBSize).packCalls = 0 ∧
      (PrePack st0 shape isSigned group 3 packBSize).state.packedW = false ∧
      (PrePack st0 shape isSigned group 3 packBSize).state.reorderedW = true) ∧
    ((shape.getD 1 0 ≠ 1 ∧ (shape.getD 0 0).tdiv group ≠ 1) →
      (packBSize ≠ 0 →
        (PrePack st0 shape isSigned group 3 packBSize).packCalls = group.toNat ∧
        (PrePack st0 shape isSigned group 3 packBSize).state.packedW = true) ∧
      (packBSize = 0 →
        (PrePack st0 shape isSigned group 3 packBSize).packCalls = 0 ∧
        (PrePack st0 shape isSigned group 3 packBSize).state.packedW = false ∧
        (PrePack st0 shape isSigned group 3 packBSize).state.reorderedW = true)) := by
  have h2 : ¬ shape.length ≤ 2 := by omega
  constructor
  · intro hdw
    have hcond : ¬ (shape.getD 1 0 ≠ 1 ∧ (shape.getD 0 0).tdiv group ≠ 1) := by
      tauto
    simp only [PrePack]
    rw [if_neg (not_not_intro rfl), if_neg h2, if_neg (not_not_intro hd),
      if_neg hcond]
    exact ⟨rfl, hp0, rfl⟩
  · rintro ⟨hgic, hgoc⟩
    constructor
    · intro hpb
      simp only [PrePack]
      rw [if_neg (not_not_intro rfl), if_neg h2, if_neg (not_not_intro hd),
        if_pos ⟨hgic, hgoc⟩, if_pos hpb]
      exact ⟨rfl, rfl⟩
    · intro hpb
      simp only [PrePack]
      rw [if_neg (not_not_intro rfl), if_neg h2, if_neg (not_not_intro hd),
        if_pos ⟨hgic, hgoc⟩, if_neg (not_not_intro hpb)]
      exact ⟨rfl, hp0, rfl⟩

/-- Witness for the amended C3: shape `[4, 2, 2]`, `group = 2`
(`group_input_channels = 2`, `group_output_channels = 2`), pack size 5. -/
theorem prePack_pack_selection_witness :
    (2 < ([4, 2, 2] : List Int).length ∧
      (([4, 2, 2] : List Int).getD 0 0).tmod 2 = 0) ∧
    ((PrePack .initial [4, 2, 2] false 2 3 5).packCalls = (2 : Int).toNat ∧
      (PrePack .initial [4, 2, 2] false 2 3 5).state.packedW = true) := by
  refine ⟨⟨by decide, by decide⟩, ?_⟩
  exact (prePack_pack_selection .initial [4, 2, 2] false 2 5
    (by decide) (by decide) (by decide)).2 (by decide) |>.1 (by decide)

/-!
## Quantization-parameter validation
Embeds `QLinearConv::CheckAndGetZeroPoint` (qlinearconv.cc lines 278-316)
and `QLinearConv::CheckAndGetScale` (lines 318-355).  Out-parameters
written through C++ references are returned next to the status, preserving
writes that precede an early error return.  The element loops run over
`0 ≤ i < Shape().Size()`, which equals the payload length of a tensor, so
they are `List.all` over the payload.
-/

/-- A `uint8_t` tensor: shape and payload. -/
structure QTensor where
  shape : List Int
  data : List Nat
deriving Repr, DecidableEq

/-- A `float` tensor: shape and payload (floats as `ℚ`; the verified claims
concern only which formula is applied, not float rounding). -/
structure FTensor where
  shape : List Int
  data : List ℚ
deriving Repr, DecidableEq

/-- Modelled from the spec: `IsScalarOr1ElementVector`
(`core/providers/common.h`, not under src/) — the X/Y zero-point and scale
tensors must be "scalar or single-element": rank 0, or rank 1 with one
element. -/
def isScalarOr1ElementVector (shape : List Int) : Bool :=
  shape == [] || shape == [1]

/-- The filter zero-point / scale shape test of qlinearconv.cc lines
300-302 and 340-341: rank 0, or rank 1 with extent 1 or `M`. -/
def filterParamShapeOk (shape : List Int) (M : Int) : Bool :=
  shape.length == 0 ||
    (shape.length == 1 && (shape.getD 0 0 == 1 || shape.getD 0 0 == M))

/-- Status and final out-parameter values of `CheckAndGetZeroPoint`
(`err = none` is `Status::OK()`). -/
structure ZeroPointResult where
  err : Option String
  xZp : Nat
  yZp : Nat
  wZp : Nat
deriving Repr, DecidableEq

/-- The filter zero-point part of `CheckAndGetZeroPoint` (lines 300-313):
on the valid shapes the value is read from element 0, then every further
element must equal it; note `W_zero_point_value` is already written when
the "must be constant" failure is reported. -/
def checkWZeroPoint (Wzp : QTensor) (M : Int) (xv yv w0 : Nat) :
    ZeroPointResult :=
  if filterParamShapeOk Wzp.shape M then
    let wv := Wzp.data.getD 0 0
    if Wzp.data.all (fun v => v == wv) then ⟨none, xv, yv, wv⟩
    else ⟨some "QLinearConv : filter zero point must be constant", xv, yv, wv⟩
  else ⟨some "QLinearConv : filter zero point shape invalid", xv, yv, w0⟩

/-- `QLinearConv::CheckAndGetZeroPoint` (lines 278-316).  `x0 y0 w0` are
the out-parameter values at entry (`Compute` passes 0, 0, 0). -/
def CheckAndGetZeroPoint (Xzp Wzp : QTensor) (Yzp : Option QTensor)
    (M : Int) (x0 y0 w0 : Nat) : ZeroPointResult :=
  if isScalarOr1ElementVector Xzp.shape then
    let xv := Xzp.data.getD 0 0
    match Yzp with
    | some t =>
      if isScalarOr1ElementVector t.shape then
        checkWZeroPoint Wzp M xv (t.data.getD 0 0) w0
      else
        ⟨some "QLinearConv : result zero point must be a scalar or 1D tensor of size 1",
          xv, y0, w0⟩
    | none => checkWZeroPoint Wzp M xv y0 w0
  else
    ⟨some "QLinearConv : input zero point must be a scalar or 1D tensor of size 1",
      x0, y0, w0⟩

/-- Status and final out-parameter values of `CheckAndGetScale`. -/
structure ScaleResult where
  err : Option String
  xScale : ℚ
  yScale : ℚ
  outputScales : List ℚ
deriving Repr, DecidableEq

/-- The filter scale part of `CheckAndGetScale` (lines 339-352): on the
valid shapes, `output_scales[i] = X_scale * W_scale[i] / Y_scale` when a
`Y_scale` tensor was supplied, else `X_scale * W_scale[i]`. -/
def checkWScale (Ws : FTensor) (M : Int) (hasY : Bool) (xv yv : ℚ)
    (s0 : List ℚ) : ScaleResult :=
  if filterParamShapeOk Ws.shape M then
    ⟨none, xv, yv, Ws.data.map (fun w => if hasY then xv * w / yv else xv * w)⟩
  else ⟨some "QLinearConv : filter scale shape invalid", xv, yv, s0⟩

/-- `QLinearConv::CheckAndGetScale` (lines 318-355).  `x0 y0` are the
out-parameter values at entry (`Compute` passes 1, 1) and `s0` the initial
`output_scales` vector (empty). -/
def CheckAndGetScale (Xs Ws : FTensor) (Ys : Option FTensor) (M : Int)
    (x0 y0 : ℚ) (s0 : List ℚ) : ScaleResult :=
  if isScalarOr1ElementVector Xs.shape then
    let xv := Xs.data.getD 0 0
    match Ys with
    | some t =>
      if isScalarOr1ElementVector t.shape then
        checkWScale Ws M true xv (t.data.getD 0 0) s0
      else
        ⟨some "QLinearConv : result scale must be a scalar or 1D tensor of size 1",
          xv, y0, s0⟩
    | none => checkWScale Ws M false xv y0 s0
  else
    ⟨some "QLinearConv : input scale must be a scalar or 1D tensor of size 1",
      x0, y0, s0⟩

lemma checkAndGetZeroPoint_ok (Xzp Wzp : QTensor) (Yzp : Option QTensor)
    (M : Int) (y0 w0 : Nat)
    (hx : isScalarOr1ElementVector Xzp.shape = true)
    (hw : filterParamShapeOk Wzp.shape M = true)
    (hwc : Wzp.data.all (fun v => v == Wzp.data.getD 0 0) = true)
    (hy : ∀ t, Yzp = some t → isScalarOr1ElementVector t.shape = true) :
    (CheckAndGetZeroPoint Xzp Wzp Yzp M 0 y0 w0).err = none ∧
    (Yzp = none → (CheckAndGetZeroPoint Xzp Wzp Yzp M 0 y0 w0).yZp = y0) := by
  unfold CheckAndGetZeroPoint checkWZeroPoint
  rw [if_pos hx]
  cases Yzp with
  | none =>
    dsimp only
    rw [if_pos hw, if_pos hwc]
    exact ⟨rfl, fun _ => rfl⟩
  | some t =>
    dsimp only
    rw [if_pos (hy t rfl), if_pos hw, if_pos hwc]
    exact ⟨rfl, fun h => Option.noConfusion h⟩

lemma checkAndGetScale_ok (Xs Ws : FTensor) (Ys : Option FTensor)
    (M : Int) (y0 : ℚ) (s0 : List ℚ)
    (hx : isScalarOr1ElementVector Xs.shape = true)
    (hw : filterParamShapeOk Ws.shape M = true)
    (hy : ∀ t, Ys = some t → isScalarOr1ElementVector t.shape = true) :
    (CheckAndGetScale Xs Ws Ys M 1 y0 s0).err = none ∧
    (Ys = none → (CheckAndGetScale Xs Ws Ys M 1 y0 s0).outputScales =
      Ws.data.map (fun w => Xs.data.getD 0 0 * w)) := by
  unfold CheckAndGetScale checkWScale
  rw [if_pos hx]
  cases Ys with
  | none =>
    dsimp only
    rw [if_pos hw]
    exact ⟨rfl, fun _ => by simp⟩
  | some t =>
    dsimp only
    rw [if_pos (hy t rfl), if_pos hw]
    exact ⟨rfl, fun h => Option.noConfusion h⟩

/-!
## Convolution geometry
Embeds `ConvAttributesInFlight::ConvAttributesInFlight` (qlinearconv.cc
lines 16-67).  The two `ConvAttributes` helpers it calls live in
`core/providers/cpu/nn/conv_attributes.h`, which is not under src/, so they
are modelled from the spec (§4.1).
-/

/-- Derived convolution geometry (the fields of `ConvAttributesInFlight`). -/
structure ConvAttrs where
  M : Int
  N : Int
  C : Int
  group : Int
  channelsLast : Bool
  kernelRank : Nat
  inputImageSize : Int
  outputImageSize : Int
  kernelSize : Int
  pads : List Int
  dilations : List Int
  strides : List Int
  kernelShape : List Int
  inputShape : List Int
  outputShape : List Int
  Yshape : List Int
deriving Repr, DecidableEq

/-- Modelled from the spec: `ConvAttributes::ComputeKernelShape`
(`core/providers/cpu/nn/conv_attributes.h`, not under src/) — §4.1
"Computes kernel rank from weight rank": the kernel shape is the weight's
trailing dimensions past `[M, C/group]`. -/
def computeKernelShape (Wshape : List Int) : List Int :=
  Wshape.drop 2

/-- Modelled from the spec: `ConvAttributes::InferOutputShape`
(`core/providers/cpu/nn/conv_attributes.h`, not under src/) — §4.1: each
output spatial dimension is
`floor((input + pad_begin + pad_end - dilation*(kernel-1) - 1)/stride) + 1`,
failing with `InvalidShape` if any resulting dimension is negative or the
declared pads/strides/dilations count is inconsistent with the kernel
rank. -/
def InferOutputShape (input kernel strides dilations pads : List Int) :
    Except String (List Int) :=
  let rank := kernel.length
  if input.length ≠ rank ∨ strides.length ≠ rank ∨ dilations.length ≠ rank ∨
      pads.length ≠ 2 * rank then
    .error "InvalidShape"
  else
    let dims := (List.range rank).map (fun i =>
      (input.getD i 0 + pads.getD i 0 + pads.getD (i + rank) 0 -
        dilations.getD i 0 * (kernel.getD i 0 - 1) - 1).fdiv
          (strides.getD i 0) + 1)
    if dims.any (fun d => decide (d < 0)) then .error "InvalidShape"
    else .ok dims

/-- `ConvAttributesInFlight::ConvAttributesInFlight` (lines 16-67).
Empty `pads`/`dilations`/`strides` attributes take their defaults
(lines 34-44).  The `ORT_ENFORCE` around `InferOutputShape` (line 54)
aborts the call on failure, surfaced to the caller as the `InvalidShape`
failure of §4.1; this is modelled by propagating the error. -/
def ConvAttributesInFlight (group : Int) (pads0 dilations0 strides0 : List Int)
    (Xshape Wshape : List Int) (channelsLast : Bool) :
    Except String ConvAttrs :=
  let N := Xshape.getD 0 0
  let M := Wshape.getD 0 0
  let kernelShapeDims := computeKernelShape Wshape
  let kernelRank := kernelShapeDims.length
  let C := Xshape.getD (if channelsLast then 1 + kernelRank else 1) 0
  let pads := if pads0 = [] then List.replicate (2 * kernelRank) 0 else pads0
  let dilations := if dilations0 = [] then List.replicate kernelRank 1
    else dilations0
  let strides := if strides0 = [] then List.replicate kernelRank 1 else strides0
  let spatialStart : Nat := if channelsLast then 1 else 2
  let inputShape := (Xshape.drop spatialStart).take kernelRank
  match InferOutputShape inputShape kernelShapeDims strides dilations pads with
  | .error e => .error e
  | .ok outDims =>
    .ok { M := M, N := N, C := C, group := group, channelsLast := channelsLast,
          kernelRank := kernelRank,
          inputImageSize := inputShape.prod,
          outputImageSize := outDims.prod,
          kernelSize := kernelShapeDims.prod,
          pads := pads, dilations := dilations, strides := strides,
          kernelShape := kernelShapeDims, inputShape := inputShape,
          outputShape := outDims,
          Yshape := if channelsLast then N :: (outDims ++ [M])
            else N :: M :: outDims }

lemma inferOutputShape_error (input kernel strides dilations pads : List Int)
    (e : String)
    (h : InferOutputShape input kernel strides dilations pads = .error e) :
    e = "InvalidShape" := by
  simp only [InferOutputShape] at h
  split_ifs at h <;> simp_all

lemma convAttributesInFlight_error (group : Int)
    (pads0 dilations0 strides0 Xshape Wshape : List Int) (channelsLast : Bool)
    (e : String)
    (h : ConvAttributesInFlight group pads0 dilations0 strides0 Xshape Wshape
      channelsLast = .error e) :
    e = "InvalidShape" := by
  simp only [ConvAttributesInFlight] at h
  split at h
  · rename_i e2 heq
    injection h with h2
    subst h2
    exact inferOutputShape_error _ _ _ _ _ _ heq
  · cases h

lemma convAttributesInFlight_M (group : Int)
    (pads0 dilations0 strides0 Xshape Wshape : List Int) (channelsLast : Bool)
    (ca : ConvAttrs)
    (h : ConvAttributesInFlight group pads0 dilations0 strides0 Xshape Wshape
      channelsLast = .ok ca) :
    ca.M = Wshape.getD 0 0 := by
  simp only [ConvAttributesInFlight] at h
  split at h
  · cases h
  · injection h with h2
    subst h2
    rfl

/-!
## Compute
Embeds `QLinearConv::Compute` (qlinearconv.cc lines 357-653).  The numeric
backend routines (`MlasGemm`, `MlasConvDepthwise`, `MlasTranspose`,
`MlasRequantizeOutput`, `math::Im2col`) are the out-of-scope math backend;
the trace records that they are dispatched and the parameters they receive.
-/

/-- The per-call inputs of `Compute`, read from the kernel context.
Slot 3 (`W`) is a required input and always present; `Compute` consults it
only when the weight was not prepacked.  Slots 6 (`Y_scale`) and 7
(`Y_zero_point`) are optional. -/
structure ComputeInputs where
  X : QTensor
  Xscale : FTensor
  Xzp : QTensor
  W : QTensor
  Wscale : FTensor
  Wzp : QTensor
  Yscale : Option FTensor
  Yzp : Option QTensor
deriving Repr, DecidableEq

/-- A `QLinearConv` kernel instance at `Compute` time: the constructor
attributes plus the prepack state. -/
structure KernelInstance where
  group : Int
  pads : List Int
  dilations : List Int
  strides : List Int
  channelsLast : Bool
  prepack : PrepackState
deriving Repr, DecidableEq

/-- Observable outcome of one `Compute` call: the returned status (`none`
is `Status::OK()`), whether `context->Output(0, Y_shape)` resized the
output tensor, whether any backend kernel wrote into it, whether temporary
buffers were allocated, the depthwise-dispatch decision with the group
geometry actually used by the dispatch loop, and the quantization values
handed to the backend.  `zeroPointStatus` / `scaleStatus` record the
statuses produced by the two validation helpers at lines 372 and 383 —
statuses the source then discards.  The dispatch fields
(`isDepthwiseConv`, `groupCount`, `groupInputChannels`,
`groupOutputChannels`, `outputWritten`, `tempAllocated`) describe the code
past the zero-size early exit and are `false`/pre-collapse values when that
exit or a constructor failure is taken. -/
structure ComputeTrace where
  status : Option String
  outputResized : Bool
  outputWritten : Bool
  tempAllocated : Bool
  Yshape : List Int
  isDepthwiseConv : Bool
  groupCount : Int
  groupInputChannels : Int
  groupOutputChannels : Int
  xZpValue : Nat
  yZpValue : Nat
  wZpValue : Nat
  outputScales : List ℚ
  zeroPointStatus : Option String
  scaleStatus : Option String
deriving Repr, DecidableEq

/-- `QLinearConv::Compute` (lines 357-653).  Faithful control-flow points:
* line 359: the weight tensor shape comes from the stored `W_shape_` when
  `is_W_packed_`, else from input slot 3;
* lines 372 and 383: the statuses returned by `CheckAndGetZeroPoint` and
  `CheckAndGetScale` are evaluated and then DISCARDED (the source has no
  `ORT_RETURN_IF_ERROR` around either call); execution continues;
* line 388: the output tensor is resized to `Y_shape`;
* line 391: zero-size early exit returning `Status::OK()` before any
  temporary allocation or dispatch;
* lines 399-416: `reordered_W` is non-null iff no packed buffer exists
  (from the prepacked reorder buffer, or reordered on the fly);
* line 423: depthwise selection; lines 424-430: group collapse;
* lines 479-650: per-image loop dispatching the backend kernels, which
  write the output tensor (requantize / transpose). -/
def Compute (ki : KernelInstance) (ins : ComputeInputs) : ComputeTrace :=
  let Wshape := if ki.prepack.isWPacked then ki.prepack.wShape else ins.W.shape
  match ConvAttributesInFlight ki.group ki.pads ki.dilations ki.strides
      ins.X.shape Wshape ki.channelsLast with
  | .error e =>
    { status := some e, outputResized := false, outputWritten := false,
      tempAllocated := false, Yshape := [], isDepthwiseConv := false,
      groupCount := ki.group, groupInputChannels := 0,
      groupOutputChannels := 0, xZpValue := 0, yZpValue := 0, wZpValue := 0,
      outputScales := [], zeroPointStatus := none, scaleStatus := none }
  | .ok ca =>
    let zp := CheckAndGetZeroPoint ins.Xzp ins.Wzp ins.Yzp ca.M 0 0 0
    let sc := CheckAndGetScale ins.Xscale ins.Wscale ins.Yscale ca.M 1 1 []
    if shapeSize ca.Yshape = 0 then
      { status := none, outputResized := true, outputWritten := false,
        tempAllocated := false, Yshape := ca.Yshape, isDepthwiseConv := false,
        groupCount := ki.group, groupInputChannels := Wshape.getD 1 0,
        groupOutputChannels := ca.M.tdiv ki.group,
        xZpValue := zp.xZp, yZpValue := zp.yZp, wZpValue := zp.wZp,
        outputScales := sc.outputScales,
        zeroPointStatus := zp.err, scaleStatus := sc.err }
    else
      let reorderedWPresent : Bool :=
        if ki.prepack.packedW then false
        else if ki.prepack.isWPacked then ki.prepack.reorderedW else true
      let gic0 : Int := Wshape.getD 1 0
      let goc0 : Int := ca.M.tdiv ki.group
      let isDw : Bool := reorderedWPresent && (gic0 == 1) && (goc0 == 1)
      { status := none, outputResized := true, outputWritten := true,
        tempAllocated := true, Yshape := ca.Yshape, isDepthwiseConv := isDw,
        groupCount := if isDw then 1 else ki.group,
        groupInputChannels := if isDw then ki.group else gic0,
        groupOutputChannels := if isDw then ki.group else goc0,
        xZpValue := zp.xZp, yZpValue := zp.yZp, wZpValue := zp.wZp,
        outputScales := sc.outputScales,
        zeroPointStatus := zp.err, scaleStatus := sc.err }

/-- C1 (code bug, evaluated at the failing input): at a call whose filter
zero-point tensor has length M = 2 with two distinct values,
`CheckAndGetZeroPoint` produces the `InvalidArgument` status "filter zero
point must be constant", but `Compute` discards it (the call at line 372
has no `ORT_RETURN_IF_ERROR`): the call returns `Status::OK()`, the output
tensor is resized and written, and compute proceeds — against the claim
that the failure is reported and no compute or partial result occurs. -/
theorem compute_validation_failure_not_reported :
    let ki : KernelInstance := ⟨1, [], [], [], false, .initial⟩
    let ins : ComputeInputs :=
      ⟨⟨[1, 1, 3, 3], List.replicate 9 0⟩, ⟨[], [1]⟩, ⟨[], [0]⟩,
        ⟨[2, 1, 1, 1], [1, 1]⟩, ⟨[], [1]⟩, ⟨[2], [3, 7]⟩,
        some ⟨[], [1]⟩, some ⟨[], [0]⟩⟩
    (Compute ki ins).zeroPointStatus =
      some "QLinearConv : filter zero point must be constant" ∧
    (Compute ki ins).status = none ∧
    (Compute ki ins).outputResized = true ∧
    (Compute ki ins).outputWritten = true := by
  exact ⟨rfl, rfl, rfl, rfl⟩

/-- C2 (code bug, evaluated at the failing input): a length-M filter
zero-point tensor `[5, 9]` with two distinct values makes
`CheckAndGetZeroPoint` return `InvalidArgument`, but since `Compute`
discards that status, the call succeeds and the convolution is dispatched
with `W_zero_point_value = 5` — silently using the first element as the
zero point, exactly what the claim says never happens. -/
theorem compute_uses_first_zero_point_despite_error :
    let ki : KernelInstance := ⟨1, [], [], [], false, .initial⟩
    let ins : ComputeInputs :=
      ⟨⟨[1, 1, 3, 3], List.replicate 9 0⟩, ⟨[], [1]⟩, ⟨[], [0]⟩,
        ⟨[2, 1, 1, 1], [1, 1]⟩, ⟨[], [1]⟩, ⟨[2], [5, 9]⟩,
        some ⟨[], [1]⟩, some ⟨[], [0]⟩⟩
    (Compute ki ins).zeroPointStatus =
      some "QLinearConv : filter zero point must be constant" ∧
    (Compute ki ins).status = none ∧
    (Compute ki ins).wZpValue = 5 ∧
    (Compute ki ins).outputWritten = true := by
  exact ⟨rfl, rfl, rfl, rfl⟩

/-- C4: for every call whose output-shape inference fails (a negative
inferred dimension, or attribute counts inconsistent with the kernel
rank — the failure cases of `InferOutputShape`), `Compute` fails by
returning the `InvalidShape` error status to the caller, with the output
tensor neither resized nor written. -/
theorem compute_invalid_shape_error (ki : KernelInstance)
    (ins : ComputeInputs) (e : String)
    (h : ConvAttributesInFlight ki.group ki.pads ki.dilations ki.strides
      ins.X.shape
      (if ki.prepack.isWPacked then ki.prepack.wShape else ins.W.shape)
      ki.channelsLast = .error e) :
    (Compute ki ins).status = some "InvalidShape" ∧
    (Compute ki ins).outputResized = false ∧
    (Compute ki ins).outputWritten = false := by
  have he := convAttributesInFlight_error _ _ _ _ _ _ _ _ h
  subst he
  simp only [Compute]
  rw [h]
  exact ⟨rfl, rfl, rfl⟩

/-- Witness for C4: `X` of shape `[1, 1, 1]` with a kernel of extent 3 and
no padding, whose inferred output dimension is `-1`. -/
theorem compute_invalid_shape_error_witness :
    ConvAttributesInFlight 1 [] [] [] [1, 1, 1] [1, 1, 3] false =
      .error "InvalidShape" ∧
    (Compute ⟨1, [], [], [], false, .initial⟩
      ⟨⟨[1, 1, 1], [0]⟩, ⟨[], [1]⟩, ⟨[], [0]⟩, ⟨[1, 1, 3], [0, 0, 0]⟩,
        ⟨[], [1]⟩, ⟨[], [0]⟩, some ⟨[], [1]⟩,
        some ⟨[], [0]⟩⟩).status = some "InvalidShape" := by
  refine ⟨by rfl, ?_⟩
  exact (compute_invalid_shape_error _ _ _ (by rfl)).1

/-- C7: for every valid call whose computed output tensor has size zero,
`Compute` returns success without allocating temporary buffers and without
dispatching any backend compute. -/
theorem compute_zero_size_early_exit (ki : KernelInstance)
    (ins : ComputeInputs) (ca : ConvAttrs)
    (hca : ConvAttributesInFlight ki.group ki.pads ki.dilations ki.strides
      ins.X.shape
      (if ki.prepack.isWPacked then ki.prepack.wShape else ins.W.shape)
      ki.channelsLast = .ok ca)
    (hz : shapeSize ca.Yshape = 0) :
    (Compute ki ins).status = none ∧
    (Compute ki ins).tempAllocated = false ∧
    (Compute ki ins).outputWritten = false := by
  simp only [Compute]
  rw [hca]
  dsimp only
  rw [if_pos hz]
  exact ⟨rfl, rfl, rfl⟩

/-- Witness for C7: a batch of zero images (`X` shape `[0, 1, 3, 3]`),
giving output shape `[0, 1, 3, 3]` of size zero. -/
theorem compute_zero_size_early_exit_witness :
    (ConvAttributesInFlight 1 [] [] [] [0, 1, 3, 3] [1, 1, 1, 1] false =
      .ok ⟨1, 0, 1, 1, false, 2, 9, 9, 1, [0, 0, 0, 0], [1, 1], [1, 1],
        [1, 1], [3, 3], [3, 3], [0, 1, 3, 3]⟩ ∧
      shapeSize [0, 1, 3, 3] = 0) ∧
    ((Compute ⟨1, [], [], [], false, .initial⟩
        ⟨⟨[0, 1, 3, 3], []⟩, ⟨[], [1]⟩, ⟨[], [0]⟩, ⟨[1, 1, 1, 1], [1]⟩,
          ⟨[], [1]⟩, ⟨[], [0]⟩, some ⟨[], [1]⟩, some ⟨[], [0]⟩⟩).status =
        none ∧
      (Compute ⟨1, [], [], [], false, .initial⟩
        ⟨⟨[0, 1, 3, 3], []⟩, ⟨[], [1]⟩, ⟨[], [0]⟩, ⟨[1, 1, 1, 1], [1]⟩,
          ⟨[], [1]⟩, ⟨[], [0]⟩, some ⟨[], [1]⟩,
          some ⟨[], [0]⟩⟩).tempAllocated = false ∧
      (Compute ⟨1, [], [], [], false, .initial⟩
        ⟨⟨[0, 1, 3, 3], []⟩, ⟨[], [1]⟩, ⟨[], [0]⟩, ⟨[1, 1, 1, 1], [1]⟩,
          ⟨[], [1]⟩, ⟨[], [0]⟩, some ⟨[], [1]⟩,
          some ⟨[], [0]⟩⟩).outputWritten = false) := by
  refine ⟨⟨by rfl, by decide⟩, ?_⟩
  exact compute_zero_size_early_exit _ _
    ⟨1, 0, 1, 1, false, 2, 9, 9, 1, [0, 0, 0, 0], [1, 1], [1, 1], [1, 1],
      [3, 3], [3, 3], [0, 1, 3, 3]⟩ (by rfl) (by decide)

lemma prePack_state_wShape (shape : List Int) (isSigned : Bool)
    (group inputIdx : Int) (packBSize : Nat)
    (h : (PrePack .initial shape isSigned group inputIdx
      packBSize).state.isWPacked = true) :
    (PrePack .initial shape isSigned group inputIdx packBSize).state.wShape =
      shape := by
  unfold PrePack at h ⊢
  split_ifs at h ⊢ <;> first | rfl | simp [PrepackState.initial] at h

lemma prePack_state_packedW_imp (shape : List Int) (isSigned : Bool)
    (group inputIdx : Int) (packBSize : Nat)
    (h : (PrePack .initial shape isSigned group inputIdx
      packBSize).state.packedW = true) :
    shape.getD 1 0 ≠ 1 ∧ (shape.getD 0 0).tdiv group ≠ 1 := by
  unfold PrePack at h
  split_ifs at h <;> first | assumption | simp [PrepackState.initial] at h

lemma prePack_state_reorderedW (shape : List Int) (isSigned : Bool)
    (group inputIdx : Int) (packBSize : Nat)
    (h1 : (PrePack .initial shape isSigned group inputIdx
      packBSize).state.isWPacked = true)
    (h2 : (PrePack .initial shape isSigned group inputIdx
      packBSize).state.packedW = false) :
    (PrePack .initial shape isSigned group inputIdx
      packBSize).state.reorderedW = true := by
  unfold PrePack at h1 h2 ⊢
  split_ifs at h1 h2 ⊢ <;>
    first | rfl | simp [PrepackState.initial] at h1 h2

/-- C5: for a kernel whose prepack state came from `PrePack` on the weight
tensor (fresh kernel), the depthwise fast path is selected exactly when
`group_input_channels == 1` and `group_output_channels == 1`; when
selected, the group loop collapses: the group count becomes 1 and the
channel count (`group`, which then equals C and M) acts as the pseudo-group
count in both channel fields. -/
theorem compute_depthwise_selection (group : Int) (pads dils strs : List Int)
    (cl isSigned : Bool) (inputIdx : Int) (packBSize : Nat)
    (ins : ComputeInputs) (ca : ConvAttrs)
    (hca : ConvAttributesInFlight group pads dils strs ins.X.shape ins.W.shape
      cl = .ok ca)
    (hsz : ¬ shapeSize ca.Yshape = 0) :
    ((Compute ⟨group, pads, dils, strs, cl,
        (PrePack .initial ins.W.shape isSigned group inputIdx
          packBSize).state⟩ ins).isDepthwiseConv = true ↔
      (ins.W.shape.getD 1 0 = 1 ∧ ca.M.tdiv group = 1)) ∧
    ((ins.W.shape.getD 1 0 = 1 ∧ ca.M.tdiv group = 1) →
      (Compute ⟨group, pads, dils, strs, cl,
        (PrePack .initial ins.W.shape isSigned group inputIdx
          packBSize).state⟩ ins).groupCount = 1 ∧
      (Compute ⟨group, pads, dils, strs, cl,
        (PrePack .initial ins.W.shape isSigned group inputIdx
          packBSize).state⟩ ins).groupInputChannels = group ∧
      (Compute ⟨group, pads, dils, strs, cl,
        (PrePack .initial ins.W.shape isSigned group inputIdx
          packBSize).state⟩ ins).groupOutputChannels = group) := by
  have hM := convAttributesInFlight_M _ _ _ _ _ _ _ _ hca
  set st := (PrePack PrepackState.initial ins.W.shape isSigned group inputIdx
    packBSize).state with hst
  have hws : (if st.isWPacked = true then st.wShape else ins.W.shape) =
      ins.W.shape := by
    by_cases h : st.isWPacked = true
    · rw [if_pos h]
      rw [hst] at h ⊢
      exact prePack_state_wShape _ _ _ _ _ h
    · rw [if_neg h]
  have hiff : ((if st.packedW = true then false
        else if st.isWPacked = true then st.reorderedW else true) &&
        (ins.W.shape.getD 1 0 == 1) && (ca.M.tdiv group == 1)) = true ↔
      (ins.W.shape.getD 1 0 = 1 ∧ ca.M.tdiv group = 1) := by
    constructor
    · intro hdw
      simp only [Bool.and_eq_true, beq_iff_eq] at hdw
      exact ⟨hdw.1.2, hdw.2⟩
    · intro hgg
      have hpf : st.packedW = false := by
        cases hq : st.packedW
        · rfl
        · exfalso
          rw [hst] at hq
          have himp := prePack_state_packedW_imp _ _ _ _ _ hq
          rw [hM] at hgg
          exact himp.1 hgg.1
      have hro : (if st.packedW = true then false
          else if st.isWPacked = true then st.reorderedW else true) = true := by
        rw [hpf]
        simp only [Bool.false_eq_true, if_false]
        cases hw2 : st.isWPacked
        · simp
        · rw [hst] at hw2 hpf
          simpa using prePack_state_reorderedW _ _ _ _ _ hw2 hpf
      simp only [Bool.and_eq_true, beq_iff_eq]
      exact ⟨⟨hro, hgg.1⟩, hgg.2⟩
  simp only [Compute]
  rw [hws, hca]
  dsimp only
  rw [if_neg hsz]
  refine ⟨hiff, fun hgg => ?_⟩
  have hdw := hiff.mpr hgg
  simp only [if_pos hdw]
  refine ⟨?_, ?_, ?_⟩ <;> trivial

/-- Witness for C5: `X` shape `[1, 2, 3, 3]`, `W` shape `[2, 1, 2, 2]`,
`group = 2` — a depthwise-eligible geometry with a prepack that declines
packing. -/
theorem compute_depthwise_selection_witness :
    (ConvAttributesInFlight 2 [] [] [] [1, 2, 3, 3] [2, 1, 2, 2] false =
      .ok ⟨2, 1, 2, 2, false, 2, 9, 4, 4, [0, 0, 0, 0], [1, 1], [1, 1],
        [2, 2], [3, 3], [2, 2], [1, 2, 2, 2]⟩ ∧
      ¬ shapeSize [1, 2, 2, 2] = 0) ∧
    ((Compute ⟨2, [], [], [], false,
        (PrePack .initial ([2, 1, 2, 2] : List Int) false 2 3
          7).state⟩
        ⟨⟨[1, 2, 3, 3], List.replicate 18 0⟩, ⟨[], [1]⟩, ⟨[], [0]⟩,
          ⟨[2, 1, 2, 2], List.replicate 8 1⟩, ⟨[], [1]⟩, ⟨[], [0]⟩,
          some ⟨[], [1]⟩, some ⟨[], [0]⟩⟩).isDepthwiseConv = true ∧
      (Compute ⟨2, [], [], [], false,
        (PrePack .initial ([2, 1, 2, 2] : List Int) false 2 3
          7).state⟩
        ⟨⟨[1, 2, 3, 3], List.replicate 18 0⟩, ⟨[], [1]⟩, ⟨[], [0]⟩,
          ⟨[2, 1, 2, 2], List.replicate 8 1⟩, ⟨[], [1]⟩, ⟨[], [0]⟩,
          some ⟨[], [1]⟩, some ⟨[], [0]⟩⟩).groupCount = 1 ∧
      (Compute ⟨2, [], [], [], false,
        (PrePack .initial ([2, 1, 2, 2] : List Int) false 2 3
          7).state⟩
        ⟨⟨[1, 2, 3, 3], List.replicate 18 0⟩, ⟨[], [1]⟩, ⟨[], [0]⟩,
          ⟨[2, 1, 2, 2], List.replicate 8 1⟩, ⟨[], [1]⟩, ⟨[], [0]⟩,
          some ⟨[], [1]⟩, some ⟨[], [0]⟩⟩).groupInputChannels = 2 ∧
      (Compute ⟨2, [], [], [], false,
        (PrePack .initial ([2, 1, 2, 2] : List Int) false 2 3
          7).state⟩
        ⟨⟨[1, 2, 3, 3], List.replicate 18 0⟩, ⟨[], [1]⟩, ⟨[], [0]⟩,
          ⟨[2, 1, 2, 2], List.replicate 8 1⟩, ⟨[], [1]⟩, ⟨[], [0]⟩,
          some ⟨[], [1]⟩, some ⟨[], [0]⟩⟩).groupOutputChannels = 2) := by
  refine ⟨⟨by rfl, by decide⟩, ?_⟩
  have h := compute_depthwise_selection 2 [] [] [] false false 3 7
    ⟨⟨[1, 2, 3, 3], List.replicate 18 0⟩, ⟨[], [1]⟩, ⟨[], [0]⟩,
      ⟨[2, 1, 2, 2], List.replicate 8 1⟩, ⟨[], [1]⟩, ⟨[], [0]⟩,
      some ⟨[], [1]⟩, some ⟨[], [0]⟩⟩
    ⟨2, 1, 2, 2, false, 2, 9, 4, 4, [0, 0, 0, 0], [1, 1], [1, 1],
      [2, 2], [3, 3], [2, 2], [1, 2, 2, 2]⟩
    (by rfl) (by decide)
  have hgg : (([2, 1, 2, 2] : List Int).getD 1 0 = 1 ∧
      (2 : Int).tdiv 2 = 1) := by decide
  exact ⟨h.1.mpr hgg, (h.2 hgg).1, (h.2 hgg).2.1, (h.2 hgg).2.2⟩

/-- C10: `Y_scale` and `Y_zero_point` are each independently optional:
with the mandatory quantization tensors valid, any combination of present
or absent `Y_scale` / `Y_zero_point` (when present, scalar-shaped) is
accepted with no error from either validation helper and an OK call
status; when `Y_zero_point` is absent requantization receives output zero
point 0, and when `Y_scale` is absent every output scale is
`X_scale * W_scale[i]`, computed with no division. -/
theorem compute_optional_output_params (ki : KernelInstance)
    (ins : ComputeInputs) (ca : ConvAttrs)
    (hca : ConvAttributesInFlight ki.group ki.pads ki.dilations ki.strides
      ins.X.shape
      (if ki.prepack.isWPacked then ki.prepack.wShape else ins.W.shape)
      ki.channelsLast = .ok ca)
    (hxzp : isScalarOr1ElementVector ins.Xzp.shape = true)
    (hwzp : filterParamShapeOk ins.Wzp.shape ca.M = true)
    (hwc : ins.Wzp.data.all (fun v => v == ins.Wzp.data.getD 0 0) = true)
    (hxs : isScalarOr1ElementVector ins.Xscale.shape = true)
    (hws : filterParamShapeOk ins.Wscale.shape ca.M = true)
    (hyzp : ∀ t, ins.Yzp = some t → isScalarOr1ElementVector t.shape = true)
    (hys : ∀ t, ins.Yscale = some t → isScalarOr1ElementVector t.shape = true) :
    (Compute ki ins).status = none ∧
    (Compute ki ins).zeroPointStatus = none ∧
    (Compute ki ins).scaleStatus = none ∧
    (ins.Yzp = none → (Compute ki ins).yZpValue = 0) ∧
    (ins.Yscale = none → (Compute ki ins).outputScales =
      ins.Wscale.data.map (fun w => ins.Xscale.data.getD 0 0 * w)) := by
  have hzp := checkAndGetZeroPoint_ok ins.Xzp ins.Wzp ins.Yzp ca.M 0 0
    hxzp hwzp hwc hyzp
  have hsc := checkAndGetScale_ok ins.Xscale ins.Wscale ins.Yscale ca.M 1 []
    hxs hws hys
  simp only [Compute]
  rw [hca]
  dsimp only
  by_cases hz : shapeSize ca.Yshape = 0
  · rw [if_pos hz]
    exact ⟨rfl, hzp.1, hsc.1, fun h => hzp.2 h, fun h => hsc.2 h⟩
  · rw [if_neg hz]
    exact ⟨rfl, hzp.1, hsc.1, fun h => hzp.2 h, fun h => hsc.2 h⟩

/-- Witness for C10: `Y_scale` absent, `Y_zero_point` present (value 5),
per-channel `W_scale = [1, 2]` with `X_scale = 1`: the call is accepted
and the output scales are `[1*1, 1*2]` with no division. -/
theorem compute_optional_output_params_witness :
    (isScalarOr1ElementVector ([] : List Int) = true ∧
      filterParamShapeOk [2] 2 = true ∧
      (([3, 3] : List Nat).all (fun v => v == ([3, 3] : List Nat).getD 0 0))
        = true) ∧
    ((Compute ⟨1, [], [], [], false, .initial⟩
        ⟨⟨[1, 1, 3, 3], List.replicate 9 2⟩, ⟨[], [1]⟩, ⟨[], [0]⟩,
          ⟨[2, 1, 1, 1], [1, 1]⟩, ⟨[2], [1, 2]⟩, ⟨[2], [3, 3]⟩,
          none, some ⟨[], [5]⟩⟩).status = none ∧
      (Compute ⟨1, [], [], [], false, .initial⟩
        ⟨⟨[1, 1, 3, 3], List.replicate 9 2⟩, ⟨[], [1]⟩, ⟨[], [0]⟩,
          ⟨[2, 1, 1, 1], [1, 1]⟩, ⟨[2], [1, 2]⟩, ⟨[2], [3, 3]⟩,
          none, some ⟨[], [5]⟩⟩).zeroPointStatus = none ∧
      (Compute ⟨1, [], [], [], false, .initial⟩
        ⟨⟨[1, 1, 3, 3], List.replicate 9 2⟩, ⟨[], [1]⟩, ⟨[], [0]⟩,
          ⟨[2, 1, 1, 1], [1, 1]⟩, ⟨[2], [1, 2]⟩, ⟨[2], [3, 3]⟩,
          none, some ⟨[], [5]⟩⟩).scaleStatus = none ∧
      (Compute ⟨1, [], [], [], false, .initial⟩
        ⟨⟨[1, 1, 3, 3], List.replicate 9 2⟩, ⟨[], [1]⟩, ⟨[], [0]⟩,
          ⟨[2, 1, 1, 1], [1, 1]⟩, ⟨[2], [1, 2]⟩, ⟨[2], [3, 3]⟩,
          none, some ⟨[], [5]⟩⟩).outputScales =
        ([1, 2] : List ℚ).map (fun w => (1 : ℚ) * w)) := by
  refine ⟨⟨by decide, by decide, by decide⟩, ?_⟩
  have h := compute_optional_output_params ⟨1, [], [], [], false, .initial⟩
    ⟨⟨[1, 1, 3, 3], List.replicate 9 2⟩, ⟨[], [1]⟩, ⟨[], [0]⟩,
      ⟨[2, 1, 1, 1], [1, 1]⟩, ⟨[2], [1, 2]⟩, ⟨[2], [3, 3]⟩,
      none, some ⟨[], [5]⟩⟩
    ⟨2, 1, 1, 1, false, 2, 9, 9, 1, [0, 0, 0, 0], [1, 1], [1, 1],
      [1, 1], [3, 3], [3, 3], [1, 2, 3, 3]⟩
    (by rfl) (by decide) (by decide) (by decide) (by decide) (by decide)
    (fun t ht => by injection ht with h2; subst h2; decide)
    (fun t ht => Option.noConfusion ht)
  exact ⟨h.1, h.2.1, h.2.2.1, h.2.2.2.2 rfl⟩

end QLinearConvModel
